import Mathlib

/-!
Verification of the credential lifecycle and request-retry wrapper of the
`tdapi` client library (src/tdapi/client.py, src/tdapi/utils.py,
src/tdapi/models/auth.py), shallowly embedded in Lean 4.

Python dictionaries that come from JSON are modelled as association lists
`List (String × PyVal)`; a Python value that may be `None`, a string, an
int, a bool, or a nested dict is a `PyVal`.  HTTP responses are modelled by
a `Response` record whose `jsonVal` field is the result of `resp.json()`
(`Option.none` when the body is not parseable as JSON, in which case the
Python call raises).  The transport is a pure function from the index of
the `self.request` call to the response it yields, and the auth endpoint's
response to the token post is a further explicit parameter, so every
behaviour of `TDClient` is a pure function of its inputs.
-/

namespace Tdapi

/-- A Python/JSON value as it appears in the request-parameter dicts and
response bodies handled by the client. -/
inductive PyVal where
  | none
  | str (s : String)
  | int (n : Int)
  | bool (b : Bool)
  | dict (d : List (String × PyVal))
deriving Repr

/-- Embeds `tdapi.utils.remove_null_values`: drops every key whose value is
`None` from the dict, recursing into nested dict values (a dict value is
itself filtered and always kept, since a dict is never `None`). -/
def remove_null_values : List (String × PyVal) → List (String × PyVal)
  | [] => []
  | (_, PyVal.none) :: rest => remove_null_values rest
  | (k, PyVal.dict d) :: rest =>
      (k, PyVal.dict (remove_null_values d)) :: remove_null_values rest
  | (k, v) :: rest => (k, v) :: remove_null_values rest

/-- Embeds `tdapi.models.auth.EASObject` (a pydantic model): the credential
set, with the source's field defaults. -/
structure EASObject where
  access_token : String := ""
  refresh_token : String := ""
  token_type : String := ""
  expires_in : Int := 0
  scope : String := ""
  refresh_token_expires_in : Int := 0
deriving Repr, DecidableEq

/-- Embeds pydantic's `EASObject.dict()`: the full six-key dict of the
model's fields, in declaration order. -/
def EASObject.toDict (e : EASObject) : List (String × PyVal) :=
  [("access_token", PyVal.str e.access_token),
   ("refresh_token", PyVal.str e.refresh_token),
   ("token_type", PyVal.str e.token_type),
   ("expires_in", PyVal.int e.expires_in),
   ("scope", PyVal.str e.scope),
   ("refresh_token_expires_in", PyVal.int e.refresh_token_expires_in)]

/-- Python `d[k] = v` on a dict modelled as an association list: replace the
value at the first occurrence of `k`, keeping its position; append `(k, v)`
when `k` is absent.  Dicts built from JSON or from `EASObject.dict()` have
no duplicate keys, so "first occurrence" is the only occurrence. -/
def setKey : List (String × PyVal) → String → PyVal → List (String × PyVal)
  | [], k, v => [(k, v)]
  | (k', v') :: rest, k, v =>
      if k' = k then (k', v) :: rest else (k', v') :: setKey rest k v

/-- Python `base.update(upd)` on dicts modelled as association lists:
assign each key/value pair of `upd` into `base`, left to right. -/
def dictUpdate (base upd : List (String × PyVal)) : List (String × PyVal) :=
  upd.foldl (fun b kv => setKey b kv.1 kv.2) base

/-- String field extraction for `EASObject(**d)`: the value at `k` when it
is a string, the default `dflt` otherwise. -/
def lookupStr (d : List (String × PyVal)) (k : String) (dflt : String) : String :=
  match d.lookup k with
  | Option.some (PyVal.str s) => s
  | _ => dflt

/-- Int field extraction for `EASObject(**d)`: the value at `k` when it is
an int, the default `dflt` otherwise. -/
def lookupInt (d : List (String × PyVal)) (k : String) (dflt : Int) : Int :=
  match d.lookup k with
  | Option.some (PyVal.int n) => n
  | _ => dflt

/-- Embeds the constructor call `EASObject(**d)`: each field takes the
dict's value when the key is present (with the field's type), and the
pydantic field default otherwise; unknown keys are ignored. -/
def easFromPyDict (d : List (String × PyVal)) : EASObject :=
  { access_token := lookupStr d "access_token" ""
    refresh_token := lookupStr d "refresh_token" ""
    token_type := lookupStr d "token_type" ""
    expires_in := lookupInt d "expires_in" 0
    scope := lookupStr d "scope" ""
    refresh_token_expires_in := lookupInt d "refresh_token_expires_in" 0 }

/-- The JSON document `save_json` writes for an `EASObject`: the model's
`.dict()` serialized as a JSON object. -/
def easSave (e : EASObject) : PyVal :=
  PyVal.dict e.toDict

/-- An HTTP response as the client observes it: the status code, the raw
body text, and `jsonVal`, the result of `resp.json()` — `Option.none` when
the body is not parseable as JSON (the Python call raises there). -/
structure Response where
  status_code : Nat
  text : String
  jsonVal : Option PyVal

/-- The `expected_status_codes : Union[List, int]` argument of
`TDClient.validate_status`. -/
inductive StatusCodes where
  | int (n : Nat)
  | list (l : List Nat)

/-- The `isinstance(expected_status_codes, int)` normalization at the top
of `validate_status`: a single int becomes a one-element list. -/
def StatusCodes.toList : StatusCodes → List Nat
  | StatusCodes.int n => [n]
  | StatusCodes.list l => l

/-- Embeds the `BadStatusCode` exception object: its stored attributes
`resp` and `expected_status_codes`, plus `resp_json`, the `try:
resp.json() except: None` value its constructor interpolates into the
exception message. -/
structure BadStatusCode where
  resp : Response
  expected_status_codes : List Nat
  resp_json : Option PyVal

/-- Embeds `BadStatusCode.__init__` applied to a response and the
(already-normalized) expected status codes. -/
def mkBadStatusCode (resp : Response) (expected : List Nat) : BadStatusCode :=
  { resp := resp, expected_status_codes := expected, resp_json := resp.jsonVal }

/-- Embeds `TDClient.validate_status`: raises `BadStatusCode` when the
response's status code is not among the expected ones. -/
def validate_status (resp : Response) (expected : StatusCodes) :
    Except BadStatusCode Unit :=
  let codes := expected.toList
  if resp.status_code ∈ codes then Except.ok ()
  else Except.error (mkBadStatusCode resp codes)

/-- The errors the client surfaces.  `credentialsNotFound` is the
`FileNotFoundError` raised when the auth file is absent (the spec's
`CredentialsNotFound`); `persistError` is an OS error escaping `save_json`
(the spec's `PersistError`); `badStatus` is a raised `BadStatusCode` (the
spec's `AuthExchangeFailed` on the token endpoint and `UnexpectedStatus`
elsewhere); `jsonError` is `resp.json()` raising on an unparseable body. -/
inductive TDError where
  | credentialsNotFound
  | persistError
  | badStatus (e : BadStatusCode)
  | jsonError

/-- The mutable state of a `TDClient` instance relevant to the credential
lifecycle: the in-memory `EASObject`, the session's `Authorization` header
(absent until first set), the content of the file at `auth_filepath`, and
the read-only `user_config.consumer_key`. -/
structure ClientState where
  eas_object : EASObject
  authHeader : Option String
  disk : Option PyVal
  consumer_key : String

/-- Result of `TDClient.update_eas_object`: the client state after the call
(Python exceptions do not roll back attribute mutations, so the state is
meaningful even when `err` is set), the raised error if any, and the number
of completed writes to the auth file. -/
structure UpdateResult where
  st : ClientState
  err : Option TDError
  writes : Nat

/-- Embeds `TDClient.update_eas_object`: take the current object's full
dict, `update` it with the incoming dict, rebuild the `EASObject`, install
the bearer header, then `save_json` the new object to the auth file.
`saveOk` models whether the write to durable storage succeeds; on failure
the in-memory object and header keep their new values and the raised OS
error surfaces as `persistError`. -/
def update_eas_object (saveOk : Bool) (st : ClientState)
    (eas_dict : List (String × PyVal)) : UpdateResult :=
  let merged := dictUpdate st.eas_object.toDict eas_dict
  let newEas := easFromPyDict merged
  let st1 : ClientState :=
    { st with eas_object := newEas
              authHeader := Option.some ("Bearer " ++ newEas.access_token) }
  if saveOk then
    { st := { st1 with disk := Option.some (easSave newEas) }
      err := Option.none, writes := 1 }
  else
    { st := st1, err := Option.some TDError.persistError, writes := 0 }

/-- Result of `TDClient.__init__`: the constructed state on success, the
raised error otherwise, the number of transport calls made (the
constructor's body contains none), and the number of completed writes to
the auth file. -/
structure InitResult where
  st : Option ClientState
  err : Option TDError
  netCalls : Nat
  writes : Nat

/-- Embeds `TDClient.__init__`: `load_json(auth_filepath)` — modelled by
`file`, `Option.none` when no file exists at the path, in which case
`open` raises `FileNotFoundError` — then `update_eas_object` on the loaded
dict (the stored file holds a JSON object with the credential fields).
No transport request is issued anywhere in the constructor. -/
def TDClient.init (saveOk : Bool) (file : Option (List (String × PyVal)))
    (consumer_key : String) : InitResult :=
  match file with
  | Option.none =>
      { st := Option.none, err := Option.some TDError.credentialsNotFound
        netCalls := 0, writes := 0 }
  | Option.some eas_dict =>
      let st0 : ClientState :=
        { eas_object := {}, authHeader := Option.none
          disk := Option.some (PyVal.dict eas_dict), consumer_key := consumer_key }
      let u := update_eas_object saveOk st0 eas_dict
      { st := if u.err.isNone then Option.some u.st else Option.none
        err := u.err, netCalls := 0, writes := u.writes }

/-- A Python `str` argument that may be `None`, as a `PyVal`. -/
def optStr : Option String → PyVal
  | Option.none => PyVal.none
  | Option.some s => PyVal.str s

/-- The `params` dict literal built inside `TDClient._post_access_token`,
before `remove_null_values` is applied. -/
def access_token_params (grant_type refresh_token : String)
    (access_type code : Option String) (client_id : String)
    (redirect_uri : Option String) : List (String × PyVal) :=
  [("grant_type", PyVal.str grant_type),
   ("refresh_token", PyVal.str refresh_token),
   ("access_type", optStr access_type),
   ("code", optStr code),
   ("client_id", PyVal.str client_id),
   ("redirect_uri", optStr redirect_uri)]

/-- Result of `TDClient._post_access_token`: the form payload actually
posted to the token endpoint, and the parsed response dict or the raised
error. -/
structure PostTokenResult where
  payload : List (String × PyVal)
  result : Except TDError (List (String × PyVal))

/-- Embeds `TDClient._post_access_token`: build the params dict, strip the
null-valued keys, POST the payload (the endpoint's answer is modelled by
`authResp`), `validate_status(resp, 200)`, and return `resp.json()`.  A
non-200 status raises `BadStatusCode`; a body that is not a JSON object
fails when parsed or consumed. -/
def _post_access_token (authResp : Response) (grant_type refresh_token : String)
    (access_type code : Option String) (client_id : String)
    (redirect_uri : Option String) : PostTokenResult :=
  let params := remove_null_values
    (access_token_params grant_type refresh_token access_type code client_id
      redirect_uri)
  { payload := params
    result :=
      match validate_status authResp (StatusCodes.int 200) with
      | Except.error e => Except.error (TDError.badStatus e)
      | Except.ok _ =>
          match authResp.jsonVal with
          | Option.some (PyVal.dict d) => Except.ok d
          | _ => Except.error TDError.jsonError }

/-- Result of `TDClient.authenticate`: the client state after the call, the
raised error if any, the number of POSTs made to the token endpoint, and
the number of completed writes to the auth file. -/
structure AuthResult where
  st : ClientState
  err : Option TDError
  authPosts : Nat
  writes : Nat

/-- Embeds `TDClient.authenticate`: post the refresh-token exchange (the
`self.eas_object is None` reload branch is dead, since the class attribute
default makes `eas_object` always an `EASObject`), and on success merge and
persist the returned dict via `update_eas_object`.  Exactly one POST is
made; no internal retry exists. -/
def authenticate (saveOk : Bool) (authResp : Response) (st : ClientState) :
    AuthResult :=
  match (_post_access_token authResp "refresh_token"
      st.eas_object.refresh_token Option.none Option.none st.consumer_key
      Option.none).result with
  | Except.error e => { st := st, err := Option.some e, authPosts := 1, writes := 0 }
  | Except.ok eas_dict =>
      let u := update_eas_object saveOk st eas_dict
      { st := u.st, err := u.err, authPosts := 1, writes := u.writes }

/-- Result of `TDClient._request`: the returned response (`Option.none`
when an exception propagates instead), the propagated error if any, the
client state after the call, the `(method, url, kwargs)` of each
`self.request` transport call in order, and the number of `authenticate`
invocations. -/
structure RequestResult where
  resp : Option Response
  err : Option TDError
  st : ClientState
  sends : List (String × String × String)
  refreshes : Nat

/-- Embeds `TDClient._request`: send the request through the transport
(`transport n` is the response to the `n`-th `self.request` call; `kwargs`
is the request's options, carried opaquely); when the response status is
401, `authenticate()` once and resend the identical request once, returning
the second response whatever its status; an error raised by `authenticate`
propagates.  No path issues a third transport call. -/
def TDClient._request (transport : Nat → Response) (saveOk : Bool)
    (authResp : Response) (st : ClientState) (method url kwargs : String) :
    RequestResult :=
  let r0 := transport 0
  if r0.status_code = 401 then
    let a := authenticate saveOk authResp st
    match a.err with
    | Option.some e =>
        { resp := Option.none, err := Option.some e, st := a.st
          sends := [(method, url, kwargs)], refreshes := 1 }
    | Option.none =>
        { resp := Option.some (transport 1), err := Option.none, st := a.st
          sends := [(method, url, kwargs), (method, url, kwargs)], refreshes := 1 }
  else
    { resp := Option.some r0, err := Option.none, st := st
      sends := [(method, url, kwargs)], refreshes := 0 }

/-! ## Dictionary lemmas -/

/-- `setKey` stores `v` at `k`: looking `k` up afterwards finds `v`. -/
theorem lookup_setKey_self (b : List (String × PyVal)) (k : String) (v : PyVal) :
    (setKey b k v).lookup k = Option.some v := by
  induction b with
  | nil => simp [setKey]
  | cons hd tl ih =>
      obtain ⟨k', v'⟩ := hd
      by_cases h : k' = k
      · subst h
        simp [setKey]
      · have hb : (k == k') = false := beq_eq_false_iff_ne.mpr (Ne.symm h)
        simp [setKey, h, List.lookup, hb, ih]

/-- `setKey` leaves every other key's binding unchanged. -/
theorem lookup_setKey_ne (b : List (String × PyVal)) (k k' : String) (v : PyVal)
    (h : k' ≠ k) : (setKey b k v).lookup k' = b.lookup k' := by
  induction b with
  | nil => simp [setKey, List.lookup, beq_eq_false_iff_ne.mpr h]
  | cons hd tl ih =>
      obtain ⟨k₀, v₀⟩ := hd
      by_cases h0 : k₀ = k
      · subst h0
        simp [setKey, List.lookup, beq_eq_false_iff_ne.mpr h]
      · by_cases h1 : k' = k₀
        · subst h1
          simp [setKey, h0, List.lookup]
        · simp [setKey, h0, List.lookup, beq_eq_false_iff_ne.mpr h1, ih]

/-- A key absent from the update dict keeps its binding through
`dictUpdate`. -/
theorem lookup_dictUpdate_not_mem (upd : List (String × PyVal)) (b : List (String × PyVal))
    (k : String) (h : k ∉ upd.map Prod.fst) :
    (dictUpdate b upd).lookup k = b.lookup k := by
  induction upd generalizing b with
  | nil => rfl
  | cons hd tl ih =>
      obtain ⟨k₀, v₀⟩ := hd
      simp only [List.map, List.mem_cons] at h
      push_neg at h
      have step : dictUpdate b ((k₀, v₀) :: tl) = dictUpdate (setKey b k₀ v₀) tl := rfl
      rw [step, ih (setKey b k₀ v₀) h.2, lookup_setKey_ne _ _ _ _ h.1]

/-- A key bound in a duplicate-free update dict ends up with the update's
value after `dictUpdate`. -/
theorem lookup_dictUpdate_mem (upd : List (String × PyVal)) (b : List (String × PyVal))
    (k : String) (v : PyVal) (hnd : (upd.map Prod.fst).Nodup)
    (h : upd.lookup k = Option.some v) :
    (dictUpdate b upd).lookup k = Option.some v := by
  induction upd generalizing b with
  | nil => simp [List.lookup] at h
  | cons hd tl ih =>
      obtain ⟨k₀, v₀⟩ := hd
      have step : dictUpdate b ((k₀, v₀) :: tl) = dictUpdate (setKey b k₀ v₀) tl := rfl
      simp only [List.map, List.nodup_cons] at hnd
      by_cases hk : k = k₀
      · subst hk
        simp only [List.lookup, beq_self_eq_true] at h
        rw [step, lookup_dictUpdate_not_mem tl _ k hnd.1, lookup_setKey_self]
        simpa using h
      · have hb : (k == k₀) = false := beq_eq_false_iff_ne.mpr hk
        simp only [List.lookup, hb] at h
        exact step ▸ ih (setKey b k₀ v₀) hnd.2 h

/-- A failed lookup means the key is absent from the dict. -/
theorem not_mem_of_lookup_eq_none (b : List (String × PyVal)) (k : String)
    (h : b.lookup k = Option.none) : k ∉ b.map Prod.fst := by
  induction b with
  | nil => simp
  | cons hd tl ih =>
      obtain ⟨k₀, v₀⟩ := hd
      by_cases hk : k = k₀
      · subst hk
        simp [List.lookup] at h
      · simp only [List.lookup, beq_eq_false_iff_ne.mpr hk] at h
        simpa [hk] using ih h

/-- String field of a merged dict when the update dict binds the key. -/
theorem lookupStr_dictUpdate_some (b d : List (String × PyVal)) (k a dflt : String)
    (hnd : (d.map Prod.fst).Nodup) (h : d.lookup k = Option.some (PyVal.str a)) :
    lookupStr (dictUpdate b d) k dflt = a := by
  unfold lookupStr
  rw [lookup_dictUpdate_mem d b k _ hnd h]

/-- String field of a merged dict when the update dict omits the key. -/
theorem lookupStr_dictUpdate_none (b d : List (String × PyVal)) (k dflt : String)
    (h : d.lookup k = Option.none) :
    lookupStr (dictUpdate b d) k dflt = lookupStr b k dflt := by
  unfold lookupStr
  rw [lookup_dictUpdate_not_mem d b k (not_mem_of_lookup_eq_none d k h)]

/-- Int field of a merged dict when the update dict binds the key. -/
theorem lookupInt_dictUpdate_some (b d : List (String × PyVal)) (k : String)
    (a dflt : Int) (hnd : (d.map Prod.fst).Nodup)
    (h : d.lookup k = Option.some (PyVal.int a)) :
    lookupInt (dictUpdate b d) k dflt = a := by
  unfold lookupInt
  rw [lookup_dictUpdate_mem d b k _ hnd h]

/-- Int field of a merged dict when the update dict omits the key. -/
theorem lookupInt_dictUpdate_none (b d : List (String × PyVal)) (k : String)
    (dflt : Int) (h : d.lookup k = Option.none) :
    lookupInt (dictUpdate b d) k dflt = lookupInt b k dflt := by
  unfold lookupInt
  rw [lookup_dictUpdate_not_mem d b k (not_mem_of_lookup_eq_none d k h)]

/-- The `EASObject` held after `update_eas_object` is the rebuilt merge,
whether or not the save succeeded. -/
theorem update_eas_object_eas (saveOk : Bool) (st : ClientState)
    (d : List (String × PyVal)) :
    (update_eas_object saveOk st d).st.eas_object =
      easFromPyDict (dictUpdate st.eas_object.toDict d) := by
  cases saveOk <;> rfl

/-- A successful `update_eas_object` has written exactly the saved form of
the new in-memory object to the auth file. -/
theorem update_eas_object_disk (saveOk : Bool) (st : ClientState)
    (d : List (String × PyVal))
    (h : (update_eas_object saveOk st d).err = Option.none) :
    (update_eas_object saveOk st d).st.disk =
      Option.some (easSave (update_eas_object saveOk st d).st.eas_object) ∧
    (update_eas_object saveOk st d).writes = 1 := by
  cases saveOk with
  | false => simp [update_eas_object] at h
  | true => exact ⟨rfl, rfl⟩

/-! ## Concrete fixtures used by the witness theorems -/

/-- A concrete credential set. -/
def sampleEAS : EASObject :=
  { access_token := "A1", refresh_token := "R1", token_type := "Bearer"
    expires_in := 1800, scope := "PlaceTrades"
    refresh_token_expires_in := 7776000 }

/-- A concrete client state holding `sampleEAS` in memory and on disk. -/
def sampleState : ClientState :=
  { eas_object := sampleEAS, authHeader := Option.some "Bearer A1"
    disk := Option.some (easSave sampleEAS), consumer_key := "CK" }

/-- A concrete refresh-response dict that omits `refresh_token`. -/
def sampleRefreshDict : List (String × PyVal) :=
  [("access_token", PyVal.str "A2"), ("token_type", PyVal.str "Bearer")]

/-- A concrete successful token-endpoint response whose body is
`sampleRefreshDict`. -/
def resp200 : Response :=
  { status_code := 200
    text := "\x7b\"access_token\": \"A2\", \"token_type\": \"Bearer\"\x7d"
    jsonVal := Option.some (PyVal.dict sampleRefreshDict) }

/-- A concrete unauthorized response with an unparseable body. -/
def resp401 : Response :=
  { status_code := 401, text := "unauthorized", jsonVal := Option.none }

/-- A concrete data-endpoint success response. -/
def respData : Response :=
  { status_code := 200, text := "\x7b\"candles\": []\x7d"
    jsonVal := Option.some (PyVal.dict [("candles", PyVal.dict [])]) }

/-- A transport that answers 401 to the first `self.request` call and a
200 data response to every later one. -/
def sampleTransport : Nat → Response :=
  fun n => if n = 0 then resp401 else respData

/-- A concrete failed token-endpoint answer. -/
def respAuthFail : Response :=
  { status_code := 400, text := "\x7b\"error\": \"invalid_grant\"\x7d"
    jsonVal := Option.some (PyVal.dict [("error", PyVal.str "invalid_grant")]) }

/-- A concrete server error whose body is not JSON. -/
def resp500 : Response :=
  { status_code := 500, text := "Internal Server Error", jsonVal := Option.none }

/-! ## Claim theorems -/

/-- C3: a refresh token-exchange built with `access_type`, `code` and
`redirect_uri` all `None` posts a payload holding exactly the keys
`grant_type`, `refresh_token` and `client_id`, each bound to its supplied
value; no key of the payload carries a null value. -/
theorem refresh_payload_omits_null_keys (authResp : Response)
    (gt rt cid : String) :
    ((_post_access_token authResp gt rt Option.none Option.none cid
        Option.none).payload.map Prod.fst =
      ["grant_type", "refresh_token", "client_id"]) ∧
    ((_post_access_token authResp gt rt Option.none Option.none cid
        Option.none).payload =
      [("grant_type", PyVal.str gt), ("refresh_token", PyVal.str rt),
       ("client_id", PyVal.str cid)]) ∧
    (∀ kv ∈ (_post_access_token authResp gt rt Option.none Option.none cid
        Option.none).payload, kv.2 ≠ PyVal.none) := by
  have hp : (_post_access_token authResp gt rt Option.none Option.none cid
      Option.none).payload =
      [("grant_type", PyVal.str gt), ("refresh_token", PyVal.str rt),
       ("client_id", PyVal.str cid)] := by
    simp [_post_access_token, access_token_params, optStr, remove_null_values]
  refine ⟨by rw [hp]; rfl, hp, ?_⟩
  intro kv hkv
  rw [hp] at hkv
  have : kv = ("grant_type", PyVal.str gt) ∨ kv = ("refresh_token", PyVal.str rt) ∨
      kv = ("client_id", PyVal.str cid) := by simpa using hkv
  rcases this with h | h | h <;> subst h <;> intro hc <;> exact PyVal.noConfusion hc

/-- C5: constructing the client with no credential file at the configured
path fails with the credentials-not-found error, constructs no state, and
makes no network call. -/
theorem init_no_file_fails (saveOk : Bool) (ck : String) :
    (TDClient.init saveOk Option.none ck).err =
      Option.some TDError.credentialsNotFound ∧
    (TDClient.init saveOk Option.none ck).st = Option.none ∧
    (TDClient.init saveOk Option.none ck).netCalls = 0 ∧
    (TDClient.init saveOk Option.none ck).writes = 0 :=
  ⟨rfl, rfl, rfl, rfl⟩

/-- C7: when the save to durable storage fails, `update_eas_object` raises
the persist error, yet the in-memory credential set and the authorization
header already hold the merged new values, while the stored file is
unchanged. -/
theorem persist_failure_keeps_memory_update (st : ClientState)
    (d : List (String × PyVal)) :
    (update_eas_object false st d).err = Option.some TDError.persistError ∧
    (update_eas_object false st d).st.eas_object =
      easFromPyDict (dictUpdate st.eas_object.toDict d) ∧
    (update_eas_object false st d).st.authHeader =
      Option.some ("Bearer " ++
        (easFromPyDict (dictUpdate st.eas_object.toDict d)).access_token) ∧
    (update_eas_object false st d).st.disk = st.disk ∧
    (update_eas_object false st d).writes = 0 :=
  ⟨rfl, rfl, rfl, rfl, rfl⟩

/-- C9 counterexample: constructing the client from an existing credential
file performs a write to the storage file (one completed write), refuting
that storage is written only after a refresh. -/
theorem init_existing_file_writes_counterexample :
    (TDClient.init true (Option.some (EASObject.toDict {})) "CK").writes = 1 :=
  rfl

/-- C9 amended: durable credential storage is read at construction and
written by every successful credential update, including the update the
constructor itself performs: constructing from an existing credential file
completes with exactly one write of the normalized credential set back to
storage. -/
theorem init_rewrites_storage (d : List (String × PyVal)) (ck : String) :
    (TDClient.init true (Option.some d) ck).writes = 1 ∧
    (TDClient.init true (Option.some d) ck).err = Option.none ∧
    ((TDClient.init true (Option.some d) ck).st.map ClientState.disk) =
      Option.some (Option.some
        (easSave (easFromPyDict (dictUpdate (EASObject.toDict {}) d)))) :=
  ⟨rfl, rfl, rfl⟩

/-- C10: persisting a credential set and reloading it from storage through
the constructor yields a credential set equal in all fields to the
original. -/
theorem persist_reload_round_trip (e : EASObject) (ck : String) :
    ((TDClient.init true (Option.some e.toDict) ck).st.map
        ClientState.eas_object) = Option.some e := by
  cases e
  rfl

/-- C2: merging a refresh-response field map into the stored credential set
overwrites every field the response binds and retains every field it
omits, for each of the six credential fields.  The response dict is a
Python dict, so its keys are duplicate-free. -/
theorem eas_merge_overwrites_and_retains (saveOk : Bool) (st : ClientState)
    (d : List (String × PyVal)) (hnd : (d.map Prod.fst).Nodup) :
    ((∀ a, d.lookup "access_token" = Option.some (PyVal.str a) →
        (update_eas_object saveOk st d).st.eas_object.access_token = a) ∧
     (d.lookup "access_token" = Option.none →
        (update_eas_object saveOk st d).st.eas_object.access_token =
          st.eas_object.access_token)) ∧
    ((∀ a, d.lookup "refresh_token" = Option.some (PyVal.str a) →
        (update_eas_object saveOk st d).st.eas_object.refresh_token = a) ∧
     (d.lookup "refresh_token" = Option.none →
        (update_eas_object saveOk st d).st.eas_object.refresh_token =
          st.eas_object.refresh_token)) ∧
    ((∀ a, d.lookup "token_type" = Option.some (PyVal.str a) →
        (update_eas_object saveOk st d).st.eas_object.token_type = a) ∧
     (d.lookup "token_type" = Option.none →
        (update_eas_object saveOk st d).st.eas_object.token_type =
          st.eas_object.token_type)) ∧
    ((∀ a, d.lookup "expires_in" = Option.some (PyVal.int a) →
        (update_eas_object saveOk st d).st.eas_object.expires_in = a) ∧
     (d.lookup "expires_in" = Option.none →
        (update_eas_object saveOk st d).st.eas_object.expires_in =
          st.eas_object.expires_in)) ∧
    ((∀ a, d.lookup "scope" = Option.some (PyVal.str a) →
        (update_eas_object saveOk st d).st.eas_object.scope = a) ∧
     (d.lookup "scope" = Option.none →
        (update_eas_object saveOk st d).st.eas_object.scope =
          st.eas_object.scope)) ∧
    ((∀ a, d.lookup "refresh_token_expires_in" = Option.some (PyVal.int a) →
        (update_eas_object saveOk st d).st.eas_object.refresh_token_expires_in
          = a) ∧
     (d.lookup "refresh_token_expires_in" = Option.none →
        (update_eas_object saveOk st d).st.eas_object.refresh_token_expires_in
          = st.eas_object.refresh_token_expires_in)) := by
  rw [update_eas_object_eas]
  refine ⟨⟨?_, ?_⟩, ⟨?_, ?_⟩, ⟨?_, ?_⟩, ⟨?_, ?_⟩, ⟨?_, ?_⟩, ⟨?_, ?_⟩⟩
  · intro a h
    exact lookupStr_dictUpdate_some _ d _ a _ hnd h
  · intro h
    rw [show (easFromPyDict (dictUpdate st.eas_object.toDict d)).access_token =
        lookupStr (dictUpdate st.eas_object.toDict d) "access_token" "" from rfl,
      lookupStr_dictUpdate_none _ d _ _ h]
    rfl
  · intro a h
    exact lookupStr_dictUpdate_some _ d _ a _ hnd h
  · intro h
    rw [show (easFromPyDict (dictUpdate st.eas_object.toDict d)).refresh_token =
        lookupStr (dictUpdate st.eas_object.toDict d) "refresh_token" "" from rfl,
      lookupStr_dictUpdate_none _ d _ _ h]
    rfl
  · intro a h
    exact lookupStr_dictUpdate_some _ d _ a _ hnd h
  · intro h
    rw [show (easFromPyDict (dictUpdate st.eas_object.toDict d)).token_type =
        lookupStr (dictUpdate st.eas_object.toDict d) "token_type" "" from rfl,
      lookupStr_dictUpdate_none _ d _ _ h]
    rfl
  · intro a h
    exact lookupInt_dictUpdate_some _ d _ a _ hnd h
  · intro h
    rw [show (easFromPyDict (dictUpdate st.eas_object.toDict d)).expires_in =
        lookupInt (dictUpdate st.eas_object.toDict d) "expires_in" 0 from rfl,
      lookupInt_dictUpdate_none _ d _ _ h]
    rfl
  · intro a h
    exact lookupStr_dictUpdate_some _ d _ a _ hnd h
  · intro h
    rw [show (easFromPyDict (dictUpdate st.eas_object.toDict d)).scope =
        lookupStr (dictUpdate st.eas_object.toDict d) "scope" "" from rfl,
      lookupStr_dictUpdate_none _ d _ _ h]
    rfl
  · intro a h
    exact lookupInt_dictUpdate_some _ d _ a _ hnd h
  · intro h
    rw [show (easFromPyDict
          (dictUpdate st.eas_object.toDict d)).refresh_token_expires_in =
        lookupInt (dictUpdate st.eas_object.toDict d)
          "refresh_token_expires_in" 0 from rfl,
      lookupInt_dictUpdate_none _ d _ _ h]
    rfl

/-- A non-200 answer from the token endpoint makes `_post_access_token`
raise `BadStatusCode` built from that answer. -/
theorem post_access_token_non_200 (authResp : Response) (gt rt cid : String)
    (acc cd ru : Option String) (h : authResp.status_code ≠ 200) :
    (_post_access_token authResp gt rt acc cd cid ru).result =
      Except.error (TDError.badStatus (mkBadStatusCode authResp [200])) := by
  simp [_post_access_token, validate_status, StatusCodes.toList, h]

/-- A non-200 answer from the token endpoint makes `authenticate` raise
without touching the client state or the storage file. -/
theorem authenticate_non_200 (saveOk : Bool) (authResp : Response)
    (st : ClientState) (h : authResp.status_code ≠ 200) :
    authenticate saveOk authResp st =
      { st := st
        err := Option.some (TDError.badStatus (mkBadStatusCode authResp [200]))
        authPosts := 1, writes := 0 } := by
  unfold authenticate
  rw [post_access_token_non_200 _ _ _ _ _ _ _ h]

/-- C4: a credential update that returns without error has synchronously
written the merged set to storage: the stored document is exactly the
saved form of the in-memory set, with one completed write — both for a
direct `update_eas_object` and for the update performed by a successful
`authenticate`. -/
theorem update_persists_synchronously (saveOk : Bool) (st : ClientState)
    (d : List (String × PyVal)) (authResp : Response) :
    ((update_eas_object saveOk st d).err = Option.none →
      (update_eas_object saveOk st d).st.disk =
        Option.some (easSave (update_eas_object saveOk st d).st.eas_object) ∧
      (update_eas_object saveOk st d).writes = 1) ∧
    ((authenticate saveOk authResp st).err = Option.none →
      (authenticate saveOk authResp st).st.disk =
        Option.some (easSave (authenticate saveOk authResp st).st.eas_object) ∧
      (authenticate saveOk authResp st).writes = 1) := by
  refine ⟨fun h => update_eas_object_disk saveOk st d h, fun h => ?_⟩
  unfold authenticate at h ⊢
  cases hp : (_post_access_token authResp "refresh_token"
      st.eas_object.refresh_token Option.none Option.none st.consumer_key
      Option.none).result with
  | error e =>
      rw [hp] at h
      simp at h
  | ok d2 =>
      rw [hp] at h
      exact update_eas_object_disk saveOk st d2 h

/-- C6: a refresh token-exchange answered with any status other than 200
raises the exchange failure carrying the full endpoint response (body
included), leaves the credential set and the storage file untouched, and
makes exactly one POST with no internal retry; a write to storage can only
have happened when the status was exactly 200. -/
theorem refresh_exchange_requires_200 (saveOk : Bool) (authResp : Response)
    (st : ClientState) :
    ((authResp.status_code ≠ 200 →
       (authenticate saveOk authResp st).err =
         Option.some (TDError.badStatus (mkBadStatusCode authResp [200])) ∧
       (authenticate saveOk authResp st).st = st ∧
       (authenticate saveOk authResp st).writes = 0 ∧
       (authenticate saveOk authResp st).authPosts = 1) ∧
     (mkBadStatusCode authResp [200]).resp = authResp ∧
     (mkBadStatusCode authResp [200]).resp_json = authResp.jsonVal ∧
     ((authenticate saveOk authResp st).writes ≠ 0 →
       authResp.status_code = 200)) := by
  refine ⟨fun h => ?_, rfl, rfl, fun hw => ?_⟩
  · rw [authenticate_non_200 saveOk authResp st h]
    exact ⟨rfl, rfl, rfl, rfl⟩
  · by_contra h
    rw [authenticate_non_200 saveOk authResp st h] at hw
    exact hw rfl

/-- C8: a response whose status is not among the expected codes makes
`validate_status` raise `BadStatusCode`, and that error carries the
received status code, the parsed body when the body parses as JSON, and
the raw body text. -/
theorem validate_status_error_payload (resp : Response) (expected : StatusCodes)
    (h : resp.status_code ∉ expected.toList) :
    validate_status resp expected =
      Except.error (mkBadStatusCode resp expected.toList) ∧
    (mkBadStatusCode resp expected.toList).resp.status_code =
      resp.status_code ∧
    (mkBadStatusCode resp expected.toList).resp_json = resp.jsonVal ∧
    (mkBadStatusCode resp expected.toList).resp.text = resp.text := by
  refine ⟨?_, rfl, rfl, rfl⟩
  simp [validate_status, h]

/-- C1: a first response other than 401 is returned as-is with no refresh
and a single send; a 401 first response triggers exactly one refresh and,
when the refresh succeeds, exactly one resend of the identical request,
whose response is returned whatever its status; a failed refresh
propagates its error with no resend; no path sends a third request or
refreshes twice. -/
theorem request_401_retries_once (transport : Nat → Response) (saveOk : Bool)
    (authResp : Response) (st : ClientState) (method url kwargs : String) :
    (((transport 0).status_code ≠ 401 →
       TDClient._request transport saveOk authResp st method url kwargs =
         { resp := Option.some (transport 0), err := Option.none, st := st
           sends := [(method, url, kwargs)], refreshes := 0 }) ∧
     ((transport 0).status_code = 401 →
       (authenticate saveOk authResp st).err = Option.none →
       TDClient._request transport saveOk authResp st method url kwargs =
         { resp := Option.some (transport 1), err := Option.none
           st := (authenticate saveOk authResp st).st
           sends := [(method, url, kwargs), (method, url, kwargs)]
           refreshes := 1 }) ∧
     ((transport 0).status_code = 401 →
       ∀ e, (authenticate saveOk authResp st).err = Option.some e →
       TDClient._request transport saveOk authResp st method url kwargs =
         { resp := Option.none, err := Option.some e
           st := (authenticate saveOk authResp st).st
           sends := [(method, url, kwargs)], refreshes := 1 }) ∧
     (TDClient._request transport saveOk authResp st method url
        kwargs).sends.length ≤ 2 ∧
     (TDClient._request transport saveOk authResp st method url
        kwargs).refreshes ≤ 1) := by
  refine ⟨fun h => ?_, fun h he => ?_, fun h e he => ?_, ?_, ?_⟩
  · simp [TDClient._request, h]
  · simp [TDClient._request, h, he]
  · simp [TDClient._request, h, he]
  · by_cases h : (transport 0).status_code = 401
    · cases he : (authenticate saveOk authResp st).err with
      | none => simp [TDClient._request, h, he]
      | some e => simp [TDClient._request, h, he]
    · simp [TDClient._request, h]
  · by_cases h : (transport 0).status_code = 401
    · cases he : (authenticate saveOk authResp st).err with
      | none => simp [TDClient._request, h, he]
      | some e => simp [TDClient._request, h, he]
    · simp [TDClient._request, h]

/-! ## Witnesses -/

/-- C1 witness: against a transport answering 401 then a 200 data
response, with a refreshable auth endpoint, `_request` returns the second
response, refreshes once, and sends the identical request twice. -/
theorem request_401_retries_once_witness :
    (TDClient._request sampleTransport true resp200 sampleState "GET"
        "https://api.tdameritrade.com/v1/marketdata/quotes" "symbol=SPY").resp =
      Option.some respData ∧
    (TDClient._request sampleTransport true resp200 sampleState "GET"
        "https://api.tdameritrade.com/v1/marketdata/quotes"
        "symbol=SPY").refreshes = 1 ∧
    (TDClient._request sampleTransport true resp200 sampleState "GET"
        "https://api.tdameritrade.com/v1/marketdata/quotes"
        "symbol=SPY").sends =
      [("GET", "https://api.tdameritrade.com/v1/marketdata/quotes",
        "symbol=SPY"),
       ("GET", "https://api.tdameritrade.com/v1/marketdata/quotes",
        "symbol=SPY")] := by
  have h := (request_401_retries_once sampleTransport true resp200 sampleState
    "GET" "https://api.tdameritrade.com/v1/marketdata/quotes"
    "symbol=SPY").2.1 rfl rfl
  rw [h]
  exact ⟨rfl, rfl, rfl⟩

/-- C2 witness: merging the refresh response that binds only
`access_token` to `A2` and `token_type` to `Bearer` into the stored set
whose `refresh_token` is `R1` yields `access_token = A2`,
`refresh_token = R1` unchanged, and `token_type = Bearer`. -/
theorem eas_merge_overwrites_and_retains_witness :
    (update_eas_object true sampleState
        sampleRefreshDict).st.eas_object.access_token = "A2" ∧
    (update_eas_object true sampleState
        sampleRefreshDict).st.eas_object.refresh_token = "R1" ∧
    (update_eas_object true sampleState
        sampleRefreshDict).st.eas_object.token_type = "Bearer" := by
  have h := eas_merge_overwrites_and_retains true sampleState sampleRefreshDict
    (by decide)
  exact ⟨h.1.1 "A2" rfl, h.2.1.2 rfl, h.2.2.1.1 "Bearer" rfl⟩

/-- C3 witness: the concrete refresh payload for token `R1` and client
`CK` holds exactly the three non-null keys, and its first entry is not
null. -/
theorem refresh_payload_omits_null_keys_witness :
    (_post_access_token resp401 "refresh_token" "R1" Option.none Option.none
        "CK" Option.none).payload =
      [("grant_type", PyVal.str "refresh_token"),
       ("refresh_token", PyVal.str "R1"), ("client_id", PyVal.str "CK")] ∧
    ("grant_type", PyVal.str "refresh_token").2 ≠ PyVal.none := by
  have h := refresh_payload_omits_null_keys resp401 "refresh_token" "R1" "CK"
  refine ⟨h.2.1, h.2.2 _ ?_⟩
  rw [h.2.1]
  exact List.mem_cons_self _ _

/-- C4 witness: the concrete successful update and the concrete successful
refresh both leave the stored document equal to the saved form of the
in-memory set, with one completed write. -/
theorem update_persists_synchronously_witness :
    (update_eas_object true sampleState sampleRefreshDict).st.disk =
      Option.some (easSave
        (update_eas_object true sampleState
          sampleRefreshDict).st.eas_object) ∧
    (update_eas_object true sampleState sampleRefreshDict).writes = 1 ∧
    (authenticate true resp200 sampleState).st.disk =
      Option.some (easSave
        (authenticate true resp200 sampleState).st.eas_object) := by
  have h := update_persists_synchronously true sampleState sampleRefreshDict
    resp200
  exact ⟨(h.1 rfl).1, (h.1 rfl).2, (h.2 rfl).1⟩

/-- C6 witness: a concrete 400 token-endpoint answer makes `authenticate`
fail with the exchange error carrying that answer, with no state change
and no storage write. -/
theorem refresh_exchange_requires_200_witness :
    (authenticate true respAuthFail sampleState).err =
      Option.some (TDError.badStatus (mkBadStatusCode respAuthFail [200])) ∧
    (authenticate true respAuthFail sampleState).st = sampleState ∧
    (authenticate true respAuthFail sampleState).writes = 0 ∧
    (mkBadStatusCode respAuthFail [200]).resp = respAuthFail := by
  have h := refresh_exchange_requires_200 true respAuthFail sampleState
  have h1 := h.1 (by decide)
  exact ⟨h1.1, h1.2.1, h1.2.2.1, h.2.1⟩

/-- C8 witness: a concrete 500 answer with an unparseable body raises
`BadStatusCode` carrying status 500, a `None` parsed body, and the raw
body text. -/
theorem validate_status_error_payload_witness :
    validate_status resp500 (StatusCodes.int 200) =
      Except.error (mkBadStatusCode resp500 [200]) ∧
    (mkBadStatusCode resp500 [200]).resp.status_code = 500 ∧
    (mkBadStatusCode resp500 [200]).resp_json = Option.none ∧
    (mkBadStatusCode resp500 [200]).resp.text = "Internal Server Error" := by
  have h := validate_status_error_payload resp500 (StatusCodes.int 200)
    (by decide)
  exact ⟨h.1, h.2.1, h.2.2.1, h.2.2.2⟩

end Tdapi
